import Mathlib

/-!
Shallow embedding of `ensembler/system/basic_system.py` (class `system`):
the snapshot data model, the constructor, initialisation, the simulate loop,
rollback and the mutating accessors, together with theorems settling the
specification claims about them.

Numbers are modelled as rationals (every Python float is a rational); `np.nan`
is modelled by an explicit undefined marker.  Randomness (`np.random`) is
modelled by an oracle supplying the successive draws; no claim depends on the
distribution of the draws.  The potential, sampler and conditions are external
collaborators (spec section 6) and are modelled by their interface capabilities;
the Python object holds references to them, the embedding passes them as
explicit parameters to the operations that consult them.
-/

namespace Ensembler

/-- A real number, represented as an integer fraction that is never reduced
(every Python float is such a fraction).  The representation is kept unreduced
so that all arithmetic is plain integer arithmetic, which the kernel can
evaluate; two fractions denote the same number exactly when `qeq` holds
(cross-multiplication).  Fractions built by the embedding always have positive
denominators. -/
structure Q where
  num : ℤ
  den : ℤ
deriving DecidableEq

instance : OfNat Q n := ⟨⟨n, 1⟩⟩

instance : Add Q := ⟨fun a b => ⟨a.num * b.den + b.num * a.den, a.den * b.den⟩⟩

instance : Sub Q := ⟨fun a b => ⟨a.num * b.den - b.num * a.den, a.den * b.den⟩⟩

instance : Mul Q := ⟨fun a b => ⟨a.num * b.num, a.den * b.den⟩⟩

instance : Div Q := ⟨fun a b => ⟨a.num * b.den, a.den * b.num⟩⟩

instance : Zero Q := ⟨⟨0, 1⟩⟩

/-- Value equality of two fractions: cross-multiplication. -/
def qeq (a b : Q) : Bool := a.num * b.den == b.num * a.den

/-- An energy-slot value: a real number (as a rational), `np.nan`, or a
non-numeric Python object (such as the `basicState` class attribute — a
namedtuple field descriptor — that `_update_current_vars_from_current_state`
copies into the live kinetic energy, see `update_current_vars_from_current_state`). -/
inductive EVal where
  | num (q : Q)
  | nan
  | obj
deriving DecidableEq

/-- A position / velocity / force value: a scalar float (`Option Q`, with
`none` modelling `np.nan`), a flat list of floats, or a list of lists (the
shape `_init_velocities` builds when `nStates > 1` and `nDimensions > 1`). -/
inductive PVal where
  | scl (x : Option Q)
  | vec (xs : List (Option Q))
  | mat (xss : List (List (Option Q)))
deriving DecidableEq

/-- Modelled from the spec: the State Snapshot record
(`ensembler.util.dataStructure.basicState`, whose defining module is not under
`src/`).  Per spec section 3 it is an immutable record of position, temperature,
the three energies, force and velocity; the field order and the force field's
name `dhdpos` are those used by `update_current_state` and
`_update_current_vars_from_current_state` in the source. -/
structure BState where
  position : PVal
  temperature : EVal
  total_system_energy : EVal
  total_potential_energy : EVal
  total_kinetic_energy : EVal
  dhdpos : PVal
  velocity : PVal
deriving DecidableEq

/-- The live mutable quantities that a coupled condition reads and may
overwrite (spec section 4.4: conditions read and mutate the orchestrator's
live quantities directly; they do not touch the trajectory). -/
structure LiveVars where
  currentPosition : PVal
  currentVelocities : PVal
  currentForce : PVal
  currentTotE : EVal
  currentTotPot : EVal
  currentTotKin : EVal
  currentTemperature : EVal

/-- A condition object: the `system` and `dt` attributes probed with `hasattr`
during constructor wiring, plus its `apply_coupled` behaviour on the live
quantities (spec section 6 condition capability). -/
structure Condition where
  hasSystem : Bool
  hasDt : Bool
  dt : Q
  apply : LiveVars → LiveVars

/-- The `conditions` constructor argument / `_conditions` attribute: a Python
list, some other iterable collection of conditions (a tuple), or a
non-iterable object. -/
inductive CondsContainer where
  | clist (cs : List Condition)
  | ctuple (cs : List Condition)
  | cscalar

/-- Containers the `for condition in self._conditions` loop can iterate. -/
def condsIterable : CondsContainer → Bool
  | .cscalar => false
  | _ => true

/-- The conditions held by a container (empty for a non-iterable object). -/
def condList : CondsContainer → List Condition
  | .clist cs => cs
  | .ctuple cs => cs
  | .cscalar => []

/-- The state of a `system` object: every attribute written by the embedded
methods.  `nStates`, `nstates`, `initial_position`, `velocities`,
`currentStateAttr` and `veltemp` are plain Python attributes that may not have
been assigned yet, hence `Option`.  Note the two distinct attributes `nStates`
(read by `_init_velocities`) and `nstates` (written by `__init__`, line 323 of
the source) and, likewise, the plain attribute `velocities` (written by
`set_velocities`) distinct from `_currentVelocities`, and the plain attribute
`currentState` (written by `set_current_state`, here `currentStateAttr`)
distinct from `_currentState` (here `currentState`). -/
structure System where
  nParticles : ℕ
  mass : Q
  temperature : Q
  currentState : BState
  trajectory : List BState
  currentTotE : EVal
  currentTotPot : EVal
  currentTotKin : EVal
  currentPosition : PVal
  currentVelocities : PVal
  currentForce : PVal
  currentTemperature : EVal
  conditions : CondsContainer
  nDimensions : ℤ
  nStates : Option ℤ
  nstates : Option ℤ
  initial_position : Option PVal
  step : ℕ
  velocities : Option PVal
  currentStateAttr : Option BState
  veltemp : Option Q
  verbose : Bool

/-- The potential capability (spec section 6): the declared dimensionality
constant `constants[potential.nDimensions]`, the optionally declared state
count `constants[potential.nStates]` (`none` when the potential has no
`nStates` attribute), the energy and force functions (`force` returns `none`
when the evaluation raises, which `initialise` catches), and the
condition-facet of a metadynamics bias potential (`none` for ordinary
potentials; `isinstance` against the metadynamics classes is modelled by
`condSelf` being `some`). -/
structure Potential where
  nDimensionsConst : ℤ
  nStatesConst : Option ℤ
  ene : PVal → EVal
  force : PVal → Option PVal
  condSelf : Option Condition

/-- The sampler capability (spec section 6): whether it is a subclass of
`newtonianSampler` or `langevinIntegrator` (which makes `__init__` seed
velocities), its optional `dt` attribute, and its `step` function returning a
(position, velocity, force) triple. -/
structure Sampler where
  requiresVelocity : Bool
  hasDt : Bool
  dt : Q
  step : System → PVal × PVal × PVal

/-- An oracle supplying the successive random draws: `uniform i` models the
`i`-th `np.random.rand()` draw of `random_position`, and `randVel i` models
the `i`-th value returned by `_gen_rand_vel` (the whole expression
`sqrt(R·T/mass)·normal()`, since the normal draw itself is random). -/
structure RandomOracle where
  uniform : ℕ → Q
  randVel : ℕ → Q

/-- The exceptions raised by the embedded code.  The first three names follow
the spec's error taxonomy (section 7): `ConfigurationError` is the `IOError`
raised at source line 316 for a non-positive dimensionality constant,
`ShapeMismatchError` is the `Exception` raised by `_init_position` at line 423,
and `ConditionTypeError` is the `ValueError` raised by the `conditions`
property setter at line 102.  `TypeErr` and `AttributeErr` model the Python
`TypeError` (iterating a non-iterable) and `AttributeError` (reading a missing
attribute, or calling `append` on a tuple). -/
inductive Err where
  | ConfigurationError
  | ShapeMismatchError
  | ConditionTypeError
  | TypeErr
  | AttributeErr
deriving DecidableEq

/-- `np.isnan` on a freshly computed energy (only ever applied to `num` or
`nan` values in the source). -/
def isnanE : EVal → Bool
  | .nan => true
  | _ => false

/-- `np.add` on two energy values; `nan` propagates.  (`np.add` on a
non-numeric object would raise, but `_update_energies` never reaches that
case: it only adds freshly computed energies.) -/
def addE : EVal → EVal → EVal
  | .num a, .num b => .num (a + b)
  | .obj, _ => .obj
  | _, .obj => .obj
  | _, _ => .nan

/-- Sum of squares of a list of floats (`none` components contribute their
`getD` default; callers guard that all components are numeric). -/
def sumSq (xs : List (Option Q)) : Q :=
  (xs.map (fun x => x.getD 0 * x.getD 0)).sum

/-- `np.square (np.linalg.norm v)`: the squared Euclidean norm, i.e. the sum
of the squared components (over the flattened array for nested lists). -/
def sumSqP : PVal → Q
  | .scl x => x.getD 0 * x.getD 0
  | .vec xs => sumSq xs
  | .mat xss => (xss.map sumSq).sum

/-- `system.calculate_total_kinetic_energy` (source lines 482–495): a scalar
velocity is a `Number` (also when it is `np.nan`, in which case the arithmetic
yields `nan`); an iterable velocity must have all components numeric and
non-nan, else the result is `np.nan`; a list of lists fails the
`isinstance(x, Number)` test on its rows and also yields `np.nan`. -/
def calculate_total_kinetic_energy (mass : Q) : PVal → EVal
  | .scl (some q) => .num (1/2 * mass * (q * q))
  | .scl none => .nan
  | .vec xs => if xs.all (fun x => x.isSome) then .num (1/2 * mass * sumSq xs) else .nan
  | .mat _ => .nan

/-- `system.calculate_total_potential_energy` (source lines 497–507). -/
def calculate_total_potential_energy (pot : Potential) (s : System) : EVal :=
  pot.ene s.currentPosition

/-- `system._update_energies` (source lines 547–560): recompute the potential
and kinetic energies and set the total to the potential alone when the kinetic
energy is `nan`, else to their sum. -/
def update_energies (pot : Potential) (s : System) : System :=
  let totPot := calculate_total_potential_energy pot s
  let totKin := calculate_total_kinetic_energy s.mass s.currentVelocities
  { s with currentTotPot := totPot, currentTotKin := totKin,
           currentTotE := if isnanE totKin then totPot else addE totKin totPot }

/-- `system.update_current_state` (source lines 522–533): rebuild the current
snapshot from the live quantities. -/
def update_current_state (s : System) : System :=
  { s with currentState :=
      ⟨s.currentPosition, s.currentTemperature, s.currentTotE, s.currentTotPot,
       s.currentTotKin, s.currentForce, s.currentVelocities⟩ }

/-- `system._update_temperature` (source lines 535–545): the instantaneous
temperature is always reset to the configured target. -/
def update_temperature (s : System) : System :=
  { s with currentTemperature := .num s.temperature }

/-- `system.update_system_properties` (source lines 509–520). -/
def update_system_properties (pot : Potential) (s : System) : System :=
  update_temperature (update_energies pot s)

/-- `system._update_current_vars_from_current_state` (source lines 562–578).
Every live quantity is copied from the current snapshot — except the kinetic
energy, for which the source reads `self.state.total_kinetic_energy`:
`self.state` is the `basicState` *class*, so this is the namedtuple field
descriptor (a non-numeric object), not the snapshot's value.  Modelled by
`EVal.obj`. -/
def update_current_vars_from_current_state (s : System) : System :=
  { s with currentPosition := s.currentState.position,
           currentTemperature := s.currentState.temperature,
           currentTotE := s.currentState.total_system_energy,
           currentTotPot := s.currentState.total_potential_energy,
           currentTotKin := .obj,
           currentForce := s.currentState.dhdpos,
           currentVelocities := s.currentState.velocity }

/-- `system.revert_step` (source lines 721–735): pop the last trajectory entry
and restore from the new last entry, but only when more than one entry exists
(otherwise only a warning is emitted and nothing changes). -/
def revert_step (s : System) : System :=
  if s.trajectory.length > 1 then
    let traj := s.trajectory.dropLast
    update_current_vars_from_current_state
      { s with trajectory := traj, currentState := traj.getLastD s.currentState }
  else s

/-- `system.clear_trajectory` (source lines 736–741). -/
def clear_trajectory (s : System) : System :=
  { s with trajectory := [] }

/-- The acceptance test of `system._init_position` for an explicitly supplied
position (source lines 418–420): a scalar `Number` (any float, `np.nan`
included) requires `nDimensions == 1`; an iterable of `Number`s requires
`nDimensions == len(position)`; a list of lists fails the `Number` test on its
rows. -/
def matchesDimensionality (nDim : ℤ) : PVal → Bool
  | .scl _ => nDim == 1
  | .vec xs => nDim == (xs.length : ℤ)
  | .mat _ => false

/-- `system.random_position` (source lines 462–476): draw `nDimensions`
uniform values in [-10, 10); `np.squeeze` turns a one-element array into a
scalar. -/
def random_position (oracle : RandomOracle) (nDim : ℤ) : PVal :=
  let draws := (List.range nDim.toNat).map (fun i => oracle.uniform i * 20 - 10)
  if nDim == 1 then .scl (some (draws.headD 0)) else .vec (draws.map some)

/-- `system._init_position` (source lines 405–428): no explicit position draws
a random one; an explicit position is validated against the declared
dimensionality and raises otherwise (the generic `Exception` of line 423,
named `ShapeMismatchError` in the spec's taxonomy);
the accepted position becomes both `initial_position` and the live position. -/
def init_position (oracle : RandomOracle) (initial_position : Option PVal)
    (s : System) : Except Err System :=
  match initial_position with
  | none =>
      let p := random_position oracle s.nDimensions
      .ok (update_current_state { s with initial_position := some p, currentPosition := p })
  | some p =>
      if matchesDimensionality s.nDimensions p then
        .ok (update_current_state { s with initial_position := some p, currentPosition := p })
      else .error .ShapeMismatchError

/-- The gas constant `scipy.constants.gas_constant` (the float
8.31446261815324, hence exactly representable as a fraction). -/
def gas_constant : Q := ⟨831446261815324, 100000000000000⟩

/-- `system._init_velocities` (source lines 430–448): reads `self.nStates`,
which raises `AttributeError` when the constructor never assigned it (the
potential had no `nStates` attribute, so only the misspelled `nstates` was
written); otherwise draws one `_gen_rand_vel` sample per degree of freedom in
the shape dictated by `nStates` and `nDimensions`, and records `veltemp`
computed from the squared norm of the drawn velocities. -/
def init_velocities (oracle : RandomOracle) (s : System) : Except Err System :=
  match s.nStates with
  | none => .error .AttributeErr
  | some ns =>
    let nD := s.nDimensions.toNat
    let v : PVal :=
      if ns > 1 then
        if s.nDimensions > 1 then
          .mat ((List.range ns.toNat).map
            (fun st => (List.range nD).map (fun d => some (oracle.randVel (st * nD + d)))))
        else .vec ((List.range ns.toNat).map (fun st => some (oracle.randVel st)))
      else
        if s.nDimensions > 1 then .vec ((List.range nD).map (fun d => some (oracle.randVel d)))
        else .scl (some (oracle.randVel 0))
    let s := { s with currentVelocities := v,
                      veltemp := some (s.mass / gas_constant / 1000 * sumSqP v) }
    .ok (update_current_state s)

/-- `system.initialise` (source lines 358–403): optionally clear the
trajectory, optionally (re)initialise the position, try to initialise the
force from the potential at `initial_position` (a bare `except` catches both a
missing `initial_position` attribute and a raising force function, leaving the
force unchanged), optionally initialise the velocities, reset the live
temperature to the target, reset the step counter, recompute energies and the
snapshot, and append the snapshot to the trajectory. -/
def initialise (pot : Potential) (oracle : RandomOracle)
    (withdraw_Traj init_pos init_velocity : Bool)
    (set_initial_position : Option PVal) (s : System) : Except Err System := do
  let s := if withdraw_Traj then clear_trajectory s else s
  let s ← if init_pos then init_position oracle set_initial_position s else .ok s
  let s := match s.initial_position with
           | some p => match pot.force p with
                       | some f => { s with currentForce := f }
                       | none => s
           | none => s
  let s ← if init_velocity then init_velocities oracle s else .ok s
  let s := { s with currentTemperature := .num s.temperature }
  let s := { s with step := 0 }
  let s := update_current_state (update_system_properties pot s)
  .ok { s with trajectory := s.trajectory ++ [s.currentState] }

/-- The per-condition constructor wiring (source lines 340–350): both branches
call `couple_system` (setting the condition's `system` attribute), then the
condition's `dt` is set to the sampler's `dt` only when the condition had no
`dt` attribute AND the sampler has one; in every other case it is set to 1. -/
def wire_condition (sampler : Sampler) (c : Condition) : Condition :=
  { c with hasSystem := true,
           dt := if !c.hasDt && sampler.hasDt then sampler.dt else 1,
           hasDt := true }

/-- `system.__init__` (source lines 255–351).  The declared attributes are
seeded (`nan` energies and positions, empty trajectory, all-`nan` snapshot);
the conditions argument is stored as given (`None` becomes an empty list) by a
direct write to `_conditions` — the validating `conditions` property setter is
not invoked; the dimensionality constant must be positive or the construction
raises (`ConfigurationError` in the spec's taxonomy); a potential without an
`nStates` attribute leads to the misspelled assignment `self.nstates = 1`;
velocities are seeded only for newtonian/langevin samplers; `initialise` runs
with trajectory reset; a metadynamics potential is appended to the conditions
as a condition (raising `AttributeError` when the container is not a list);
finally every condition is coupled and its `dt` wired. -/
def system_init (pot : Potential) (sampler : Sampler) (oracle : RandomOracle)
    (conditions : Option CondsContainer) (temperature : Q)
    (start_position : Option PVal) (mass : Q) (verbose : Bool) :
    Except Err System := do
  let nanState : BState := ⟨.scl none, .nan, .nan, .nan, .nan, .scl none, .scl none⟩
  let s : System :=
    { nParticles := 1, mass := mass, temperature := temperature,
      currentState := nanState, trajectory := [],
      currentTotE := .nan, currentTotPot := .nan, currentTotKin := .nan,
      currentPosition := .scl none, currentVelocities := .scl none,
      currentForce := .scl none, currentTemperature := .nan,
      conditions := match conditions with
                    | none => .clist []
                    | some c => c,
      nDimensions := 0, nStates := none, nstates := none,
      initial_position := none, step := 0, velocities := none,
      currentStateAttr := none, veltemp := none, verbose := true }
  let s ← if pot.nDimensionsConst > 0 then .ok { s with nDimensions := pot.nDimensionsConst }
          else .error Err.ConfigurationError
  let s := match pot.nStatesConst with
           | some n => { s with nStates := some n }
           | none => { s with nstates := some 1 }
  let s ← initialise pot oracle true true sampler.requiresVelocity start_position s
  let s ← match pot.condSelf with
          | none => .ok s
          | some c => match s.conditions with
                      | .clist cs => .ok { s with conditions := .clist (cs ++ [c]) }
                      | _ => .error Err.AttributeErr
  let s ← match s.conditions with
          | .clist cs => .ok { s with conditions := .clist (cs.map (wire_condition sampler)) }
          | .ctuple cs => .ok { s with conditions := .ctuple (cs.map (wire_condition sampler)) }
          | .cscalar => .error Err.TypeErr
  .ok { s with verbose := verbose }

/-- The `conditions` property setter (source lines 97–102): accepts only a
Python list and raises otherwise (the `ValueError` of line 102, named
`ConditionTypeError` in the spec's taxonomy).  `system.__init__` never calls
it. -/
def conditions_setter (c : CondsContainer) (s : System) : Except Err System :=
  match c with
  | .clist cs => .ok { s with conditions := .clist cs }
  | _ => .error Err.ConditionTypeError

/-- `system.propagate` (source lines 666–680): overwrite position, velocity
and force with the sampler's step triple; no energy recompute, no trajectory
append. -/
def propagate (sampler : Sampler) (s : System) : System :=
  { s with currentPosition := (sampler.step s).1,
           currentVelocities := (sampler.step s).2.1,
           currentForce := (sampler.step s).2.2 }

/-- Read the live quantities a condition may act on. -/
def getLive (s : System) : LiveVars :=
  ⟨s.currentPosition, s.currentVelocities, s.currentForce,
   s.currentTotE, s.currentTotPot, s.currentTotKin, s.currentTemperature⟩

/-- Install live quantities written by a condition. -/
def setLive (l : LiveVars) (s : System) : System :=
  { s with currentPosition := l.currentPosition,
           currentVelocities := l.currentVelocities,
           currentForce := l.currentForce,
           currentTotE := l.currentTotE,
           currentTotPot := l.currentTotPot,
           currentTotKin := l.currentTotKin,
           currentTemperature := l.currentTemperature }

/-- One condition's `apply_coupled()` acting on the system through its
back-reference (spec sections 4.4 and 6). -/
def applyCondition (c : Condition) (s : System) : System :=
  setLive (c.apply (getLive s)) s

/-- `system.apply_conditions` (source lines 682–694): apply every condition in
container order; iterating a non-iterable conditions attribute raises
`TypeError`. -/
def apply_conditions (s : System) : Except Err System :=
  match s.conditions with
  | .clist cs => .ok (cs.foldl (fun t c => applyCondition c t) s)
  | .ctuple cs => .ok (cs.foldl (fun t c => applyCondition c t) s)
  | .cscalar => .error Err.TypeErr

/-- One iteration of the simulate loop (source lines 645–660): set the `step`
attribute to the loop index, propagate, apply the conditions, recompute
energies and temperature, rebuild the snapshot, and append it when
`step % save_every_state == 0` and this is not the final index. -/
def simulate_step (pot : Potential) (sampler : Sampler) (steps save i : ℕ)
    (s : System) : Except Err System :=
  let s1 := propagate sampler { s with step := i }
  match apply_conditions s1 with
  | .error e => .error e
  | .ok s2 =>
      let s3 := update_current_state (update_system_properties pot s2)
      if i % save == 0 && i != steps - 1 then
        .ok { s3 with trajectory := s3.trajectory ++ [s3.currentState] }
      else .ok s3

/-- The simulate loop over the remaining iterations, with `i` the next loop
index. -/
def simulate_loop (pot : Potential) (sampler : Sampler) (steps save : ℕ) :
    ℕ → ℕ → System → Except Err System
  | _, 0, s => .ok s
  | i, r + 1, s =>
      match simulate_step pot sampler steps save i s with
      | .error e => .error e
      | .ok s' => simulate_loop pot sampler steps save (i + 1) r s'

/-- The pre-loop part of `system.simulate` (source lines 626–635): optional
re-initialisation of position (random) and velocities, optional trajectory
withdrawal (clearing it and seeding it with the current snapshot), then the
defensive snapshot rebuild followed by the energy recompute (in that order,
lines 634–635). -/
def simulate_setup (pot : Potential) (oracle : RandomOracle)
    (withdraw_traj init_system : Bool) (s : System) : Except Err System :=
  match ((if init_system then
           match init_position oracle none s with
           | .error e => .error e
           | .ok s1 => init_velocities oracle s1
         else .ok s) : Except Err System) with
  | .error e => .error e
  | .ok s =>
    let s := if withdraw_traj then
               let s1 := clear_trajectory s
               { s1 with trajectory := s1.trajectory ++ [s1.currentState] }
             else s
    .ok (update_system_properties pot (update_current_state s))

/-- `system.simulate` (source lines 598–664): the pre-loop setup, the step
loop, and an unconditional final append.  The progress bar is purely
observational and not modelled. -/
def simulate (pot : Potential) (sampler : Sampler) (oracle : RandomOracle)
    (steps : ℕ) (withdraw_traj : Bool) (save_every_state : ℕ)
    (init_system : Bool) (s : System) : Except Err System :=
  match simulate_setup pot oracle withdraw_traj init_system s with
  | .error e => .error e
  | .ok s =>
    match simulate_loop pot sampler steps save_every_state 0 steps s with
    | .error e => .error e
    | .ok s => .ok { s with trajectory := s.trajectory ++ [s.currentState] }

/-- `system.append_state` (source lines 696–719): force a new
position/velocity/force triple, recompute temperature, energies and the
snapshot, and append the snapshot. -/
def append_state (pot : Potential) (new_position new_velocity new_forces : PVal)
    (s : System) : System :=
  let s := { s with currentPosition := new_position,
                    currentVelocities := new_velocity,
                    currentForce := new_forces }
  let s := update_current_state (update_energies pot (update_temperature s))
  { s with trajectory := s.trajectory ++ [s.currentState] }

/-- `system.set_current_state` (source lines 144–172): overwrite the live
position, force, velocity and temperature, write a nan-padded snapshot to the
plain `currentState` attribute (not `_currentState`), then recompute energies
and rebuild the real snapshot.  Does not append to the trajectory. -/
def set_current_state (pot : Potential) (current_position : PVal)
    (current_velocities current_force : PVal) (current_temperature : Q)
    (s : System) : System :=
  let s := { s with currentPosition := current_position,
                    currentForce := current_force,
                    currentVelocities := current_velocities,
                    currentTemperature := .num current_temperature }
  let nanPadded : BState :=
    ⟨current_position, .num current_temperature, .nan, .nan, .nan, .scl none, .scl none⟩
  let s := { s with currentStateAttr := some nanPadded }
  update_current_state (update_energies pot s)

/-- The `position` property setter (source lines 182–188). -/
def position_setter (pot : Potential) (p : PVal) (s : System) : System :=
  let s := { s with currentPosition := p }
  let s := if s.trajectory.length == 0 then { s with initial_position := some p } else s
  update_current_state (update_energies pot s)

/-- The `velocity` property setter (source lines 205–209). -/
def velocity_setter (pot : Potential) (v : PVal) (s : System) : System :=
  update_current_state (update_energies pot { s with currentVelocities := v })

/-- `system.set_velocities` (source lines 211–212): `self.velocities =
velocities` writes the plain attribute `velocities`; it is not the `velocity`
property, so nothing else changes. -/
def set_velocities (v : PVal) (s : System) : System :=
  { s with velocities := some v }

/-- The `temperature` property setter (source lines 226–230). -/
def temperature_setter (pot : Potential) (t : Q) (s : System) : System :=
  update_energies pot { s with temperature := t, currentTemperature := .num t }

/-- Value equality of energy-slot values (`nan` and the non-numeric object
are each equal only to themselves). -/
def eveq : EVal → EVal → Bool
  | .num a, .num b => qeq a b
  | .nan, .nan => true
  | .obj, .obj => true
  | _, _ => false

/-- The spec's snapshot energy invariant (section 3): the total system energy
equals the potential energy when the kinetic energy is undefined (`nan`), and
otherwise equals the sum of the potential and kinetic energies. -/
def stateEnergyConsistent (st : BState) : Bool :=
  match st.total_kinetic_energy with
  | .nan => eveq st.total_system_energy st.total_potential_energy
  | .num k => match st.total_potential_energy, st.total_system_energy with
              | .num p, .num e => qeq e (p + k)
              | _, _ => false
  | .obj => false

/-! ### Concrete fixtures for witnesses and counterexamples -/

/-- An all-`nan` snapshot (the snapshot `__init__` seeds). -/
def nanBState : BState := ⟨.scl none, .nan, .nan, .nan, .nan, .scl none, .scl none⟩

/-- A placeholder system, used only as the default of `okD`. -/
def dummySystem : System :=
  { nParticles := 1, mass := 1, temperature := 298,
    currentState := nanBState, trajectory := [],
    currentTotE := .nan, currentTotPot := .nan, currentTotKin := .nan,
    currentPosition := .scl none, currentVelocities := .scl none,
    currentForce := .scl none, currentTemperature := .nan,
    conditions := .clist [], nDimensions := 1, nStates := none, nstates := none,
    initial_position := none, step := 0, velocities := none,
    currentStateAttr := none, veltemp := none, verbose := true }

/-- Extract the system of a successful call (defaulting to `dummySystem`). -/
def okD : Except Err System → System
  | .ok s => s
  | .error _ => dummySystem

/-- The exception of a call, `none` when it succeeded. -/
def errOf : Except Err System → Option Err
  | .ok _ => none
  | .error e => some e

/-- Trajectory length of a successful call (0 on an exception). -/
def trajLenOf (e : Except Err System) : ℕ :=
  (okD e).trajectory.length

/-- The `dt` attributes of the conditions held by a system. -/
def condDts (s : System) : List Q :=
  (condList s.conditions).map (fun c => c.dt)

/-- A deterministic oracle (all draws 0); no claim depends on the draws. -/
def oracle0 : RandomOracle := ⟨fun _ => 0, fun _ => 0⟩

/-- A 1-dimensional potential with zero energy and zero force everywhere and
no `nStates` attribute — the shape of `harmonicOscillatorPotential` at the
origin. -/
def pot0 : Potential :=
  { nDimensionsConst := 1, nStatesConst := none,
    ene := fun _ => .num 0, force := fun _ => some (.scl (some 0)),
    condSelf := none }

/-- `pot0` with dimensionality constant 0. -/
def potDim0 : Potential := { pot0 with nDimensionsConst := 0 }

/-- `pot0` with dimensionality constant 2. -/
def potDim2 : Potential := { pot0 with nDimensionsConst := 2 }

/-- A sampler that does not use velocities, has no `dt`, and whose step
returns the current triple unchanged (a Monte-Carlo-style mover for the
purposes of the counting claims). -/
def sampler0 : Sampler :=
  { requiresVelocity := false, hasDt := false, dt := 0,
    step := fun s => (s.currentPosition, s.currentVelocities, s.currentForce) }

/-- `sampler0` with a declared `dt` of 1/2. -/
def samplerDt : Sampler := { sampler0 with hasDt := true, dt := 1/2 }

/-- A condition that already has a `dt` attribute (value 5) and does
nothing. -/
def condWithDt : Condition :=
  { hasSystem := false, hasDt := true, dt := 5, apply := id }

/-- A condition without a `dt` attribute that does nothing. -/
def condNoDt : Condition :=
  { hasSystem := false, hasDt := false, dt := 0, apply := id }

/-- A freshly constructed system: `pot0`, `sampler0`, no conditions, start
position 0.  Its trajectory has exactly one entry. -/
def sys0 : System :=
  okD (system_init pot0 sampler0 oracle0 none 298 (some (.scl (some 0))) 1 true)

/-- `sys0` after `append_state(1, 2, 0)`: two trajectory entries, the last
with kinetic energy 2. -/
def sysA : System := append_state pot0 (.scl (some 1)) (.scl (some 2)) (.scl (some 0)) sys0

/-- `sysA` after `append_state(2, 4, 0)`: three trajectory entries, the last
with kinetic energy 8. -/
def sysB : System := append_state pot0 (.scl (some 2)) (.scl (some 4)) (.scl (some 0)) sysA

/-! ### Frame lemmas: the recompute helpers touch neither the trajectory nor
the conditions container -/

@[simp] theorem update_current_state_trajectory (s : System) :
    (update_current_state s).trajectory = s.trajectory := rfl

@[simp] theorem update_current_state_conditions (s : System) :
    (update_current_state s).conditions = s.conditions := rfl

@[simp] theorem update_energies_trajectory (pot : Potential) (s : System) :
    (update_energies pot s).trajectory = s.trajectory := rfl

@[simp] theorem update_energies_conditions (pot : Potential) (s : System) :
    (update_energies pot s).conditions = s.conditions := rfl

@[simp] theorem update_temperature_trajectory (s : System) :
    (update_temperature s).trajectory = s.trajectory := rfl

@[simp] theorem update_temperature_conditions (s : System) :
    (update_temperature s).conditions = s.conditions := rfl

@[simp] theorem update_system_properties_trajectory (pot : Potential) (s : System) :
    (update_system_properties pot s).trajectory = s.trajectory := rfl

@[simp] theorem update_system_properties_conditions (pot : Potential) (s : System) :
    (update_system_properties pot s).conditions = s.conditions := rfl

@[simp] theorem propagate_trajectory (sampler : Sampler) (s : System) :
    (propagate sampler s).trajectory = s.trajectory := rfl

@[simp] theorem propagate_conditions (sampler : Sampler) (s : System) :
    (propagate sampler s).conditions = s.conditions := rfl

@[simp] theorem setLive_trajectory (l : LiveVars) (s : System) :
    (setLive l s).trajectory = s.trajectory := rfl

@[simp] theorem setLive_conditions (l : LiveVars) (s : System) :
    (setLive l s).conditions = s.conditions := rfl

theorem foldl_applyCondition_frame (cs : List Condition) : ∀ s : System,
    (cs.foldl (fun t c => applyCondition c t) s).trajectory = s.trajectory ∧
    (cs.foldl (fun t c => applyCondition c t) s).conditions = s.conditions := by
  induction cs with
  | nil => intro s; exact ⟨rfl, rfl⟩
  | cons c cs ih =>
      intro s
      rw [List.foldl_cons]
      exact ⟨(ih (applyCondition c s)).1, (ih (applyCondition c s)).2⟩

/-- `apply_conditions` succeeds on an iterable conditions container and leaves
the trajectory and the container unchanged. -/
theorem apply_conditions_spec (s : System) (h : condsIterable s.conditions = true) :
    ∃ s', apply_conditions s = .ok s' ∧ s'.trajectory = s.trajectory ∧
      s'.conditions = s.conditions := by
  unfold apply_conditions
  cases hc : s.conditions with
  | clist cs =>
      refine ⟨_, rfl, ?_, ?_⟩
      · exact (foldl_applyCondition_frame cs s).1
      · exact ((foldl_applyCondition_frame cs s).2).trans hc
  | ctuple cs =>
      refine ⟨_, rfl, ?_, ?_⟩
      · exact (foldl_applyCondition_frame cs s).1
      · exact ((foldl_applyCondition_frame cs s).2).trans hc
  | cscalar => rw [hc] at h; simp [condsIterable] at h

/-- One simulate-loop iteration succeeds on an iterable conditions container,
appends exactly when the retention guard holds, and preserves the
container. -/
theorem simulate_step_spec (pot : Potential) (sampler : Sampler)
    (steps save i : ℕ) (s : System) (h : condsIterable s.conditions = true) :
    ∃ s', simulate_step pot sampler steps save i s = .ok s' ∧
      s'.trajectory.length = s.trajectory.length
        + (if (i % save == 0 && i != steps - 1) = true then 1 else 0) ∧
      s'.conditions = s.conditions := by
  obtain ⟨s2, e2, t2, c2⟩ :=
    apply_conditions_spec (propagate sampler { s with step := i }) (by simpa using h)
  unfold simulate_step
  simp only [e2]
  by_cases hg : (i % save == 0 && i != steps - 1) = true
  · rw [if_pos hg]
    refine ⟨_, rfl, ?_, ?_⟩
    · simp [hg, t2]
    · simp [c2]
  · rw [if_neg hg]
    refine ⟨_, rfl, ?_, ?_⟩
    · simp [hg, t2]
    · simp [c2]

/-- The simulate loop succeeds on an iterable conditions container and appends
one snapshot per loop index satisfying the retention guard. -/
theorem simulate_loop_spec (pot : Potential) (sampler : Sampler)
    (steps save : ℕ) : ∀ (r i : ℕ) (s : System),
    condsIterable s.conditions = true →
    ∃ s', simulate_loop pot sampler steps save i r s = .ok s' ∧
      s'.trajectory.length = s.trajectory.length
        + (List.range' i r).countP (fun j => j % save == 0 && j != steps - 1) ∧
      s'.conditions = s.conditions := by
  intro r
  induction r with
  | zero => intro i s h; exact ⟨s, rfl, by simp, rfl⟩
  | succ n ih =>
      intro i s h
      obtain ⟨s1, e1, l1, c1⟩ := simulate_step_spec pot sampler steps save i s h
      obtain ⟨s2, e2, l2, c2⟩ := ih (i + 1) s1 (by rw [c1]; exact h)
      refine ⟨s2, ?_, ?_, by rw [c2, c1]⟩
      · simp only [simulate_loop, e1]
        exact e2
      · rw [l2, l1, List.range'_succ, List.countP_cons]
        omega

/-- `simulate` without re-initialisation and without trajectory withdrawal:
appends one snapshot per retained loop index plus the unconditional final
snapshot. -/
theorem simulate_spec (pot : Potential) (sampler : Sampler)
    (oracle : RandomOracle) (steps save : ℕ) (s : System)
    (h : condsIterable s.conditions = true) :
    ∃ s', simulate pot sampler oracle steps false save false s = .ok s' ∧
      s'.trajectory.length = s.trajectory.length
        + (List.range' 0 steps).countP (fun j => j % save == 0 && j != steps - 1)
        + 1 := by
  have hsetup : simulate_setup pot oracle false false s =
      .ok (update_system_properties pot (update_current_state s)) := rfl
  obtain ⟨s', e', l', c'⟩ := simulate_loop_spec pot sampler steps save steps 0
    (update_system_properties pot (update_current_state s)) (by simpa using h)
  refine ⟨{ s' with trajectory := s'.trajectory ++ [s'.currentState] }, ?_, ?_⟩
  · unfold simulate
    simp only [hsetup, e']
  · simp only [List.length_append, List.length_cons, List.length_nil, l']
    simp

/-! ### Counting the retained loop indices -/

/-- The number of multiples of `k` below `N` is the ceiling of `N/k`. -/
theorem countP_multiples (k : ℕ) (hk : 0 < k) :
    ∀ N, (List.range N).countP (fun j => j % k == 0) = (N + k - 1) / k := by
  intro N
  induction N with
  | zero =>
      have h0 : (k - 1) / k = 0 := Nat.div_eq_of_lt (by omega)
      simp [h0]
  | succ n ih =>
      rw [List.range_succ, List.countP_append, ih]
      have h1 : List.countP (fun j => j % k == 0) [n] = if n % k = 0 then 1 else 0 := by
        by_cases h0 : n % k = 0 <;> simp [List.countP_cons, h0]
      rw [h1]
      have hq := Nat.div_add_mod n k
      have hr : n % k < k := Nat.mod_lt _ hk
      by_cases h0 : n % k = 0
      · rw [if_pos h0]
        have e1 : (n + k - 1) / k = n / k := by
          have h' : n + k - 1 = k * (n / k) + (k - 1) := by omega
          rw [h', Nat.mul_add_div hk, Nat.div_eq_of_lt (show k - 1 < k by omega)]
          omega
        have e2 : (n + 1 + k - 1) / k = n / k + 1 := by
          have hd : k * (n / k + 1) = k * (n / k) + k := by ring
          have h' : n + 1 + k - 1 = k * (n / k + 1) := by omega
          rw [h', Nat.mul_div_cancel_left _ hk]
        omega
      · rw [if_neg h0]
        have hd : k * (n / k + 1) = k * (n / k) + k := by ring
        have e1 : (n + k - 1) / k = n / k + 1 := by
          have h' : n + k - 1 = k * (n / k + 1) + (n % k - 1) := by omega
          rw [h', Nat.mul_add_div hk,
              Nat.div_eq_of_lt (show n % k - 1 < k by omega)]
        have e2 : (n + 1 + k - 1) / k = n / k + 1 := by
          have h' : n + 1 + k - 1 = k * (n / k + 1) + n % k := by omega
          rw [h', Nat.mul_add_div hk, Nat.div_eq_of_lt hr]
        omega

/-- Excluding the final index `N - 1` from a count over `range N` removes one
exactly when the final index satisfied the predicate. -/
theorem countP_range_and_ne_last (p : ℕ → Bool) (N : ℕ) (hN : 1 ≤ N) :
    (List.range N).countP (fun j => p j && j != N - 1)
      = (List.range N).countP p - (if p (N - 1) = true then 1 else 0) := by
  obtain ⟨M, rfl⟩ : ∃ M, N = M + 1 := ⟨N - 1, by omega⟩
  rw [List.range_succ, List.countP_append, List.countP_append]
  have hcongr : (List.range M).countP (fun j => p j && j != M + 1 - 1)
      = (List.range M).countP p := by
    apply List.countP_congr
    intro a ha
    have haM : a < M := List.mem_range.mp ha
    have hne : (a != M) = true := by
      simp only [bne_iff_ne, ne_eq]
      omega
    simp [hne]
  rw [hcongr]
  by_cases hp : p M = true <;>
    simp [List.countP_cons, hp]

/-- For `N ≥ 1` and `k ≥ 2`, the final index `N - 1` is a multiple of `k`
exactly when `N ≡ 1 (mod k)`. -/
theorem pred_mod_zero_iff (N k : ℕ) (hN : 1 ≤ N) (hk : 2 ≤ k) :
    ((N - 1) % k = 0) ↔ (N % k = 1) := by
  obtain ⟨q, r, hrk, hNe⟩ : ∃ q r, r < k ∧ N = k * q + r :=
    ⟨N / k, N % k, Nat.mod_lt _ (by omega), by have := Nat.div_add_mod N k; omega⟩
  have hmodN : N % k = r := by
    rw [hNe, Nat.mul_add_mod, Nat.mod_eq_of_lt hrk]
  rcases Nat.eq_zero_or_pos r with h0 | h1
  · subst h0
    have hq1 : 1 ≤ q := by
      rcases Nat.eq_zero_or_pos q with hq0 | hq1
      · subst hq0; omega
      · exact hq1
    obtain ⟨q', rfl⟩ : ∃ q', q = q' + 1 := ⟨q - 1, by omega⟩
    have hdist : k * (q' + 1) = k * q' + k := by ring
    have hN1 : N - 1 = k * q' + (k - 1) := by omega
    have hmod1 : (N - 1) % k = k - 1 := by
      rw [hN1, Nat.mul_add_mod, Nat.mod_eq_of_lt (by omega)]
    omega
  · have hN1 : N - 1 = k * q + (r - 1) := by omega
    have hmod1 : (N - 1) % k = r - 1 := by
      rw [hN1, Nat.mul_add_mod, Nat.mod_eq_of_lt (by omega)]
    omega

/-- With stride 1 the loop retains every index but the final one. -/
theorem count_save1 (N : ℕ) (hN : 1 ≤ N) :
    (List.range' 0 N).countP (fun j => j % 1 == 0 && j != N - 1) = N - 1 := by
  rw [← List.range_eq_range',
      countP_range_and_ne_last (fun j => j % 1 == 0) N hN]
  have hm : (List.range N).countP (fun j => j % 1 == 0) = N := by
    rw [countP_multiples 1 one_pos N]
    omega
  rw [hm]
  simp [Nat.mod_one]

/-- With stride `k ≥ 2` the loop retains `⌈N/k⌉` indices, minus one when
`N ≡ 1 (mod k)` (the excluded final index is then a multiple of `k`). -/
theorem count_stride (N k : ℕ) (hk : 2 ≤ k) :
    (List.range' 0 N).countP (fun j => j % k == 0 && j != N - 1)
      = (N + k - 1) / k - (if N % k = 1 then 1 else 0) := by
  rw [← List.range_eq_range']
  rcases Nat.eq_zero_or_pos N with h0 | h1
  · subst h0
    have hd : (k - 1) / k = 0 := Nat.div_eq_of_lt (by omega)
    simp [hd]
  · rw [countP_range_and_ne_last (fun j => j % k == 0) N h1,
        countP_multiples k (by omega) N]
    by_cases hc : N % k = 1
    · have hm : (N - 1) % k = 0 := (pred_mod_zero_iff N k h1 hk).mpr hc
      simp [hc, hm]
    · have hm : ¬((N - 1) % k = 0) := fun hcon => hc ((pred_mod_zero_iff N k h1 hk).mp hcon)
      simp [hc, hm]

/-! ### Claims -/

/-- C1: the claim states that every snapshot stored in the trajectory
satisfies the conditional total-energy rule and that this is preserved by
every public mutating operation.  The code violates it: after `revert_step`
(which copies the `basicState` class attribute instead of the snapshot's
kinetic energy into the live kinetic energy) a `simulate(steps=0)` call
appends a snapshot whose `total_kinetic_energy` is a non-numeric object while
its `total_system_energy` (2) differs from its `total_potential_energy` (0),
so the invariant fails under either reading of "undefined". -/
theorem C1_energy_invariant_code_bug :
    (okD (simulate pot0 sampler0 oracle0 0 false 1 false (revert_step sysB))).trajectory.map
        stateEnergyConsistent = [true, true, false] ∧
    ((okD (simulate pot0 sampler0 oracle0 0 false 1 false
        (revert_step sysB))).trajectory.getLastD nanBState).total_kinetic_energy = EVal.obj ∧
    eveq ((okD (simulate pot0 sampler0 oracle0 0 false 1 false
        (revert_step sysB))).trajectory.getLastD nanBState).total_system_energy
      (EVal.num 2) = true ∧
    eveq ((okD (simulate pot0 sampler0 oracle0 0 false 1 false
        (revert_step sysB))).trajectory.getLastD nanBState).total_potential_energy
      (EVal.num 0) = true ∧
    eveq ((okD (simulate pot0 sampler0 oracle0 0 false 1 false
        (revert_step sysB))).trajectory.getLastD nanBState).total_system_energy
      ((okD (simulate pot0 sampler0 oracle0 0 false 1 false
        (revert_step sysB))).trajectory.getLastD nanBState).total_potential_energy
      = false := by
  decide

/-- C3: the claim states that `revert_step` on a trajectory of length n > 1
leaves length n − 1 with every live quantity equal to the new last entry.  The
length part and six of the seven quantities hold, but the live kinetic energy
is set to the `basicState` class attribute (`self.state.total_kinetic_energy`,
a namedtuple field descriptor — a typo for
`self.current_state.total_kinetic_energy`), not to the entry's value `nan`. -/
theorem C3_revert_step_code_bug :
    sysA.trajectory.length = 2 ∧
    (revert_step sysA).trajectory.length = 1 ∧
    (revert_step sysA).currentPosition
      = ((revert_step sysA).trajectory.getLastD nanBState).position ∧
    (revert_step sysA).currentTemperature
      = ((revert_step sysA).trajectory.getLastD nanBState).temperature ∧
    (revert_step sysA).currentTotE
      = ((revert_step sysA).trajectory.getLastD nanBState).total_system_energy ∧
    (revert_step sysA).currentTotPot
      = ((revert_step sysA).trajectory.getLastD nanBState).total_potential_energy ∧
    (revert_step sysA).currentForce
      = ((revert_step sysA).trajectory.getLastD nanBState).dhdpos ∧
    (revert_step sysA).currentVelocities
      = ((revert_step sysA).trajectory.getLastD nanBState).velocity ∧
    ((revert_step sysA).trajectory.getLastD nanBState).total_kinetic_energy = EVal.nan ∧
    (revert_step sysA).currentTotKin = EVal.obj := by
  decide

/-- C5: the claim states that a construction with a potential that declares no
state count sets the orchestrator's `nStates` to 1.  The constructor instead
executes the misspelled assignment `self.nstates = 1`, so `nStates` is never
assigned (and `_init_velocities`, which reads it, would raise
`AttributeError`), while the unrelated attribute `nstates` holds 1. -/
theorem C5_nstates_code_bug :
    pot0.nStatesConst = none ∧
    errOf (system_init pot0 sampler0 oracle0 none 298 (some (.scl (some 0))) 1 true) = none ∧
    sys0.nStates = none ∧
    sys0.nstates = some 1 := by
  decide

/-- C9: the claim states that a conditions argument that is not a proper list
of conditions makes the constructor raise `ConditionTypeError` synchronously.
The constructor writes `self._conditions` directly and never invokes the
validating `conditions` property setter: construction with a (non-list) tuple
succeeds without any error, while the setter itself would raise; a
non-iterable conditions argument fails in the coupling loop with a plain
`TypeError` instead. -/
theorem C9_conditions_check_bypassed :
    errOf (system_init pot0 sampler0 oracle0 (some (.ctuple [])) 298
        (some (.scl (some 0))) 1 true) = none ∧
    errOf (conditions_setter (.ctuple []) dummySystem) = some Err.ConditionTypeError ∧
    errOf (system_init pot0 sampler0 oracle0 (some .cscalar) 298
        (some (.scl (some 0))) 1 true) = some Err.TypeErr := by
  decide

/-- C10: `set_velocities` assigns the plain attribute `velocities` instead of
going through the `velocity` property, so the live velocity, the three
energies, the current snapshot and the trajectory are all left unchanged for
every input. -/
theorem C10_set_velocities_frame (v : PVal) (s : System) :
    (set_velocities v s).currentVelocities = s.currentVelocities ∧
    (set_velocities v s).currentTotE = s.currentTotE ∧
    (set_velocities v s).currentTotPot = s.currentTotPot ∧
    (set_velocities v s).currentTotKin = s.currentTotKin ∧
    (set_velocities v s).currentState = s.currentState ∧
    (set_velocities v s).trajectory = s.trajectory ∧
    (set_velocities v s).velocities = some v :=
  ⟨rfl, rfl, rfl, rfl, rfl, rfl, rfl⟩

/-- C2 counterexample: at step count N = 0 (with `save_every_state = 1`, on a
trajectory of length 1) `simulate` still appends its unconditional final
snapshot, leaving length 2, not N + 1 = 1. -/
theorem C2_counterexample_zero_steps :
    sys0.trajectory.length = 1 ∧
    trajLenOf (simulate pot0 sampler0 oracle0 0 false 1 false sys0) = 2 ∧
    (2 : ℕ) ≠ 0 + 1 := by
  decide

/-- C2 (amended to N ≥ 1): `simulate(steps=N, save_every_state=1)` on a
trajectory of length 1 (without re-initialisation or withdrawal, with an
iterable conditions container) leaves exactly N + 1 entries. -/
theorem C2_simulate_save1_length (pot : Potential) (sampler : Sampler)
    (oracle : RandomOracle) (s : System) (N : ℕ) (hN : 1 ≤ N)
    (hlen : s.trajectory.length = 1) (hc : condsIterable s.conditions = true) :
    ∃ s', simulate pot sampler oracle N false 1 false s = .ok s' ∧
      s'.trajectory.length = N + 1 := by
  obtain ⟨s', e', l'⟩ := simulate_spec pot sampler oracle N 1 s hc
  refine ⟨s', e', ?_⟩
  rw [l', hlen, count_save1 N hN]
  omega

/-- C2 witness at N = 3. -/
theorem C2_simulate_save1_length_witness :
    ∃ s', simulate pot0 sampler0 oracle0 3 false 1 false sys0 = .ok s' ∧
      s'.trajectory.length = 3 + 1 :=
  C2_simulate_save1_length pot0 sampler0 oracle0 sys0 3 (by decide) (by decide) (by decide)

/-- C4 counterexample: at N = 3, k = 2 the loop appends only one interior
snapshot (index 0; index 2 is a multiple of 2 but is excluded as the final
index), so the trajectory ends with 1 + 1 + 1 = 3 entries, not the claimed
1 + ⌈3/2⌉ + 1 = 4. -/
theorem C4_counterexample_stride :
    sys0.trajectory.length = 1 ∧
    trajLenOf (simulate pot0 sampler0 oracle0 3 false 2 false sys0) = 3 ∧
    (3 : ℕ) ≠ 1 + (3 + 2 - 1) / 2 + 1 := by
  decide

/-- C4 (amended): `simulate(steps=N, save_every_state=k, k>1)` appends
`⌈N/k⌉` interior snapshots during the loop — minus one when N ≡ 1 (mod k),
because the final index N − 1 is then a multiple of k and is excluded — plus
the unconditional final snapshot. -/
theorem C4_simulate_stride_length (pot : Potential) (sampler : Sampler)
    (oracle : RandomOracle) (s : System) (N k : ℕ) (hk : 2 ≤ k)
    (hc : condsIterable s.conditions = true) :
    ∃ s', simulate pot sampler oracle N false k false s = .ok s' ∧
      s'.trajectory.length
        = s.trajectory.length + ((N + k - 1) / k - (if N % k = 1 then 1 else 0)) + 1 := by
  obtain ⟨s', e', l'⟩ := simulate_spec pot sampler oracle N k s hc
  refine ⟨s', e', ?_⟩
  rw [l', count_stride N k hk]

/-- C4 witness at N = 4, k = 2. -/
theorem C4_simulate_stride_length_witness :
    ∃ s', simulate pot0 sampler0 oracle0 4 false 2 false sys0 = .ok s' ∧
      s'.trajectory.length
        = sys0.trajectory.length + ((4 + 2 - 1) / 2 - (if 4 % 2 = 1 then 1 else 0)) + 1 :=
  C4_simulate_stride_length pot0 sampler0 oracle0 sys0 4 2 (by decide) (by decide)

/-- C6: a potential whose declared dimensionality constant is not positive
makes the constructor raise immediately (`ConfigurationError` in the spec's
taxonomy; the `IOError` of source line 316), regardless of any explicitly
supplied starting position. -/
theorem C6_nonpositive_dimensionality_error (pot : Potential) (sampler : Sampler)
    (oracle : RandomOracle) (conds : Option CondsContainer) (temperature : Q)
    (start_position : Option PVal) (mass : Q) (verbose : Bool)
    (h : pot.nDimensionsConst ≤ 0) :
    system_init pot sampler oracle conds temperature start_position mass verbose
      = .error Err.ConfigurationError := by
  unfold system_init
  dsimp only
  rw [if_neg (show ¬pot.nDimensionsConst > 0 by omega)]
  rfl

/-- C6 witness: dimensionality constant 0. -/
theorem C6_nonpositive_dimensionality_error_witness :
    potDim0.nDimensionsConst ≤ 0 ∧
    system_init potDim0 sampler0 oracle0 none 298 (some (.scl (some 0))) 1 true
      = .error Err.ConfigurationError :=
  ⟨by decide, C6_nonpositive_dimensionality_error potDim0 sampler0 oracle0 none 298
    (some (.scl (some 0))) 1 true (by decide)⟩

/-! ### Helpers for pushing results through the constructor's monadic chain -/

theorem ok_bind {a b : Type} (x : a) (f : a → Except Err b) :
    (Except.ok x >>= f : Except Err b) = f x := rfl

theorem bind_error_of_error {a b : Type} (x : Except Err a) (f : a → Except Err b)
    (e : Err) (h : x = .error e) : (x >>= f) = .error e := by
  rw [h]
  rfl

theorem update_current_state_initial_position (s : System) :
    (update_current_state s).initial_position = s.initial_position := rfl

/-- `_init_position` rejects an explicit position that fails the
dimensionality test. -/
theorem init_position_mismatch (oracle : RandomOracle) (p : PVal) (t : System)
    (hmatch : matchesDimensionality t.nDimensions p = false) :
    init_position oracle (some p) t = .error Err.ShapeMismatchError := by
  simp [init_position, hmatch]

/-- `_init_position` accepts an explicit position that passes the
dimensionality test. -/
theorem init_position_ok (oracle : RandomOracle) (p : PVal) (t : System)
    (hmatch : matchesDimensionality t.nDimensions p = true) :
    init_position oracle (some p) t
      = .ok (update_current_state
          { t with initial_position := some p, currentPosition := p }) := by
  simp [init_position, hmatch]

/-- `initialise` with position seeding propagates the shape mismatch. -/
theorem initialise_shape_mismatch (pot : Potential) (oracle : RandomOracle)
    (w iv : Bool) (p : PVal) (s : System)
    (hmatch : matchesDimensionality s.nDimensions p = false) :
    initialise pot oracle w true iv (some p) s = .error Err.ShapeMismatchError := by
  have h1 : init_position oracle (some p) (if w then clear_trajectory s else s)
      = .error Err.ShapeMismatchError := by
    apply init_position_mismatch
    cases w <;> simpa [clear_trajectory] using hmatch
  unfold initialise
  dsimp only
  rw [h1]
  rfl

/-- The system produced by a successful `initialise` that seeds the position
from an accepted explicit position and does not seed velocities. -/
def initialise_result (pot : Potential) (w : Bool) (p : PVal) (s : System) : System :=
  let s0 := if w then clear_trajectory s else s
  let s1 := update_current_state { s0 with initial_position := some p, currentPosition := p }
  let s2 := match pot.force p with
            | some f => { s1 with currentForce := f }
            | none => s1
  let s3 := { s2 with currentTemperature := EVal.num s2.temperature }
  let s4 := { s3 with step := 0 }
  let s5 := update_current_state (update_system_properties pot s4)
  { s5 with trajectory := s5.trajectory ++ [s5.currentState] }

/-- `initialise` with position seeding, no velocity seeding and an accepted
explicit position succeeds and produces `initialise_result`. -/
theorem initialise_ok_eq (pot : Potential) (oracle : RandomOracle) (w : Bool)
    (p : PVal) (s : System)
    (hmatch : matchesDimensionality s.nDimensions p = true) :
    initialise pot oracle w true false (some p) s
      = .ok (initialise_result pot w p s) := by
  have h1 : init_position oracle (some p) (if w then clear_trajectory s else s)
      = .ok (update_current_state { (if w then clear_trajectory s else s) with
          initial_position := some p, currentPosition := p }) := by
    apply init_position_ok
    cases w <;> simpa [clear_trajectory] using hmatch
  unfold initialise initialise_result
  dsimp only
  rw [h1]
  simp only [ok_bind, update_current_state_initial_position]
  cases hf : pot.force p <;> rfl

/-- `initialise` leaves the conditions container unchanged. -/
theorem initialise_result_conditions (pot : Potential) (w : Bool) (p : PVal)
    (s : System) :
    (initialise_result pot w p s).conditions = s.conditions := by
  unfold initialise_result
  cases hf : pot.force p <;> cases w <;> rfl

/-- C7 counterexample: with declared dimensionality 1 the explicit starting
position `[3.0]` — a numeric vector of length 1, not a scalar — is accepted
without any error, because the source also admits an iterable of numbers
whose length equals `nDimensions`; the claim as stated says this raises
`ShapeMismatchError`. -/
theorem C7_counterexample_vector_in_1d :
    pot0.nDimensionsConst = 1 ∧
    errOf (system_init pot0 sampler0 oracle0 none 298 (some (.vec [some 3])) 1 true)
      = none ∧
    (okD (system_init pot0 sampler0 oracle0 none 298
      (some (.vec [some 3])) 1 true)).currentPosition = PVal.vec [some 3] := by
  decide

/-- C7 (amended): initialization raises `ShapeMismatchError` for every
explicit starting position that is neither a scalar with declared
dimensionality 1 nor a numeric vector whose length equals the declared
dimensionality (so a length-1 numeric vector is also accepted in one
dimension). -/
theorem C7_shape_mismatch_error (pot : Potential) (sampler : Sampler)
    (oracle : RandomOracle) (conds : Option CondsContainer) (temperature : Q)
    (p : PVal) (mass : Q) (verbose : Bool)
    (hdim : 0 < pot.nDimensionsConst)
    (hmatch : matchesDimensionality pot.nDimensionsConst p = false) :
    system_init pot sampler oracle conds temperature (some p) mass verbose
      = .error Err.ShapeMismatchError := by
  unfold system_init
  dsimp only
  rw [if_pos hdim]
  simp only [ok_bind]
  cases hns : pot.nStatesConst with
  | none =>
      dsimp only
      apply bind_error_of_error
      apply initialise_shape_mismatch
      exact hmatch
  | some n =>
      dsimp only
      apply bind_error_of_error
      apply initialise_shape_mismatch
      exact hmatch

/-- C7 witness: declared dimensionality 2 with a scalar starting position. -/
theorem C7_shape_mismatch_error_witness :
    0 < potDim2.nDimensionsConst ∧
    matchesDimensionality potDim2.nDimensionsConst (PVal.scl (some 0)) = false ∧
    system_init potDim2 sampler0 oracle0 none 298 (some (.scl (some 0))) 1 true
      = .error Err.ShapeMismatchError :=
  ⟨by decide, by decide, C7_shape_mismatch_error potDim2 sampler0 oracle0 none 298
    (.scl (some 0)) 1 true (by decide) (by decide)⟩

/-- C8 counterexample: a condition that already has a `dt` attribute (5),
coupled to a sampler exposing `dt = 1/2`, ends up with `dt = 1` after
construction — not the sampler's `dt` — because the source sets
`condition.dt = self.sampler.dt` only when the condition had no `dt`
attribute, and otherwise overwrites it with 1. -/
theorem C8_counterexample_existing_dt :
    condWithDt.hasDt = true ∧ samplerDt.hasDt = true ∧
    condDts (okD (system_init pot0 samplerDt oracle0 (some (.clist [condWithDt])) 298
      (some (.scl (some 0))) 1 true)) = [1] ∧
    qeq 1 samplerDt.dt = false := by
  decide

/-- C8 (amended): after construction, each condition's `dt` equals the
sampler's `dt` exactly when the condition had no preexisting `dt` attribute
and the sampler exposes one; in every other case — including a condition that
already had a `dt` — it is set to 1. -/
theorem C8_condition_dt_wiring (pot : Potential) (sampler : Sampler)
    (oracle : RandomOracle) (cs : List Condition) (temperature : Q) (p : PVal)
    (mass : Q) (verbose : Bool)
    (hdim : 0 < pot.nDimensionsConst)
    (hmatch : matchesDimensionality pot.nDimensionsConst p = true)
    (hvel : sampler.requiresVelocity = false)
    (hmeta : pot.condSelf = none) :
    ∃ s, system_init pot sampler oracle (some (.clist cs)) temperature (some p)
        mass verbose = .ok s ∧
      condDts s = cs.map (fun c => if !c.hasDt && sampler.hasDt then sampler.dt else 1) := by
  unfold system_init
  dsimp only
  rw [if_pos hdim, hvel]
  simp only [ok_bind]
  cases hns : pot.nStatesConst with
  | none =>
      simp only [initialise_ok_eq pot oracle true p, hmatch, ok_bind, hmeta,
        initialise_result_conditions]
      refine ⟨_, rfl, ?_⟩
      simp [condDts, condList, wire_condition]
  | some n =>
      simp only [initialise_ok_eq pot oracle true p, hmatch, ok_bind, hmeta,
        initialise_result_conditions]
      refine ⟨_, rfl, ?_⟩
      simp [condDts, condList, wire_condition]

/-- C8 witness: one condition with a preexisting `dt` (wired to 1) and one
without (wired to the sampler's `dt`). -/
theorem C8_condition_dt_wiring_witness :
    ∃ s, system_init pot0 samplerDt oracle0 (some (.clist [condWithDt, condNoDt])) 298
        (some (.scl (some 0))) 1 true = .ok s ∧
      condDts s = [condWithDt, condNoDt].map
        (fun c => if !c.hasDt && samplerDt.hasDt then samplerDt.dt else 1) :=
  C8_condition_dt_wiring pot0 samplerDt oracle0 [condWithDt, condNoDt] 298
    (.scl (some 0)) 1 true (by decide) (by decide) rfl rfl

end Ensembler
